import Mathlib

set_option autoImplicit false

/-!
Shallow embedding of the AiBesty server core (storage layer and HTTP route
handlers) for checking the natural-language specification against the code.

Sources embedded here:
- `src/server/storage.ts` (`MemStorage`, the storage instance wired into every
  route via `export const storage = new MemStorage()`);
- the `DatabaseStorage` implementation (`src/unnamed/part_011`, first section);
- `src/server/lib/utils.ts` / `src/server/lib/openai.ts` (`getMoodPrompt`,
  prompt assembly in `getAIResponse`);
- the Express route handlers registered in `registerRoutes`
  (`src/unnamed/part_011`, third section).

Modelling conventions:
- JavaScript `Date` timestamps are `Nat` values threaded explicitly: each
  handler/storage call takes the value(s) that `new Date()` produces at the
  corresponding program points, so clock monotonicity is a hypothesis where
  it matters.
- A JavaScript `Map` is a list in insertion order; `Map.set` replaces in
  place when the key is present and appends otherwise (JS preserves the
  original position of an overwritten key), `Map.get` is `List.find?`.
- `undefined`/`null` become `Option`; the JS falsiness checks the code
  performs (`!x`, `x || d`) are modelled on exactly the shapes the code
  checks them at (`Option String` values may additionally be the falsy
  empty string, `Nat` ids are falsy at 0).
- External calls (`getAIResponse` reaching OpenAI) are abstracted by an
  explicit outcome value: `AIOutcome.ok text` for a successful completion
  and `AIOutcome.fail` for a thrown error, which is what the handlers
  branch on.
- `Array.prototype.sort` with a numeric comparator is a stable sort; it is
  embedded as `List.insertionSort` (stable) with the corresponding relation.
-/

/-! ## Data model (shared/schema.ts rows as stored by the server) -/

structure User where
  id : Nat
  email : String
  emailVerified : Bool
  createdAt : Nat
  deriving Repr, DecidableEq

structure AuthToken where
  id : Nat
  email : String
  token : String
  expires : Nat
  used : Bool
  createdAt : Nat
  deriving Repr, DecidableEq

structure Persona where
  id : Nat
  userId : Nat
  voice : String
  mood : String
  customVoiceId : Option String
  customMoodSettings : Option String
  createdAt : Nat
  updatedAt : Nat
  deriving Repr, DecidableEq

structure Conversation where
  id : Nat
  userId : Nat
  personaId : Option Nat
  title : String
  createdAt : Nat
  updatedAt : Nat
  deriving Repr, DecidableEq

structure Message where
  id : Nat
  conversationId : Nat
  content : String
  audioUrl : Option String
  isUserMessage : Bool
  createdAt : Nat
  deriving Repr, DecidableEq

/-- Insert shape for personas (`InsertPersona`): the fields `createPersona`
reads; `voice`/`mood` may be absent or empty, in which case
the storage layer applies its `|| 'female'` / `|| 'chill'` defaults. -/
structure InsertPersona where
  userId : Nat
  voice : Option String
  mood : Option String
  customVoiceId : Option String
  customMoodSettings : Option String
  deriving Repr, DecidableEq

structure InsertConversation where
  userId : Nat
  personaId : Option Nat
  title : Option String
  deriving Repr, DecidableEq

structure InsertMessage where
  conversationId : Nat
  content : String
  audioUrl : Option String
  isUserMessage : Bool
  deriving Repr, DecidableEq

/-! ## JS-semantics helpers -/

/-- JS `Map.set k v`: overwrite in place when `k` is present, append
otherwise. `isKey` tests whether an entry carries the key being set. -/
def jsMapSet {α : Type} (l : List α) (isKey : α → Bool) (v : α) : List α :=
  if l.any isKey then l.map (fun x => if isKey x then v else x) else l ++ [v]

/-- JS `x || d` on a nullable string: `undefined`/`null`/`""` fall back. -/
def jsOrString (x : Option String) (d : String) : String :=
  match x with
  | none => d
  | some s => if s = "" then d else s

/-- JS `x || null` on a nullable string: the empty string collapses to null. -/
def jsOrNull (x : Option String) : Option String :=
  match x with
  | none => none
  | some s => if s = "" then none else some s

/-- JS falsiness of a possibly-absent string value (`!x`). -/
def jsFalsyString (x : Option String) : Bool :=
  match x with
  | none => true
  | some s => s = ""

/-! ## MemStorage (src/server/storage.ts)

The state carried by the `MemStorage` instance: five insertion-ordered maps
and five id counters. -/

structure MemStorage where
  users : List User
  authTokens : List AuthToken
  personas : List Persona
  conversations : List Conversation
  messages : List Message
  userIdCounter : Nat
  personaIdCounter : Nat
  conversationIdCounter : Nat
  messageIdCounter : Nat
  authTokenIdCounter : Nat
  deriving Repr, DecidableEq

namespace MemStorage

/-- The freshly constructed store (`new MemStorage()`). -/
def init : MemStorage :=
  { users := [], authTokens := [], personas := [], conversations := []
    messages := [], userIdCounter := 1, personaIdCounter := 1
    conversationIdCounter := 1, messageIdCounter := 1, authTokenIdCounter := 1 }

def getUser (st : MemStorage) (id : Nat) : Option User :=
  st.users.find? (fun u => u.id = id)

def getUserByEmail (st : MemStorage) (email : String) : Option User :=
  st.users.find? (fun u => u.email = email)

/-- `createUser`: assigns the next id, `emailVerified: false`,
`createdAt: now`. -/
def createUser (st : MemStorage) (email : String) (now : Nat) :
    User × MemStorage :=
  let id := st.userIdCounter
  let user : User := { id := id, email := email, emailVerified := false, createdAt := now }
  (user,
   { st with users := jsMapSet st.users (fun u => u.id = id) user
             userIdCounter := st.userIdCounter + 1 })

/-- `createAuthToken`: the random token string is passed in explicitly
(`randomBytes(32).toString('hex')`); expiry is 30 minutes from `now`
(expressed in milliseconds, as in the source). -/
def createAuthToken (st : MemStorage) (email : String) (tokenStr : String)
    (now : Nat) : AuthToken × MemStorage :=
  let id := st.authTokenIdCounter
  let authToken : AuthToken :=
    { id := id, email := email, token := tokenStr
      expires := now + 30 * 60 * 1000, used := false, createdAt := now }
  (authToken,
   { st with authTokens := jsMapSet st.authTokens (fun a => a.token = tokenStr) authToken
             authTokenIdCounter := st.authTokenIdCounter + 1 })

/-- `validateAuthToken`: fails when the token is unknown, already used, or
past expiry (`new Date() > authToken.expires`, strict); otherwise marks the
token used, fetches or creates the user for the token's email, marks the
user verified, and returns it. `now` stands for every `new Date()` read in
the call (they occur within the same tick). -/
def validateAuthToken (st : MemStorage) (tokenStr : String) (now : Nat) :
    Option User × MemStorage :=
  match st.authTokens.find? (fun a => a.token = tokenStr) with
  | none => (none, st)
  | some authToken =>
    if authToken.used ∨ authToken.expires < now then
      (none, st)
    else
      let usedToken := { authToken with used := true }
      let st := { st with
        authTokens := jsMapSet st.authTokens (fun a => a.token = tokenStr) usedToken }
      let (user, st) :=
        match getUserByEmail st authToken.email with
        | some u => (u, st)
        | none => createUser st authToken.email now
      let verified := { user with emailVerified := true }
      (some verified,
       { st with users := jsMapSet st.users (fun u => u.id = user.id) verified })

def getPersona (st : MemStorage) (id : Nat) : Option Persona :=
  st.personas.find? (fun p => p.id = id)

def getPersonasByUserId (st : MemStorage) (userId : Nat) : List Persona :=
  st.personas.filter (fun p => p.userId = userId)

/-- `createPersona`: next id, `voice || 'female'`, `mood || 'chill'`,
`customVoiceId || null`, `customMoodSettings || null`,
`createdAt = updatedAt = now`. -/
def createPersona (st : MemStorage) (ins : InsertPersona) (now : Nat) :
    Persona × MemStorage :=
  let id := st.personaIdCounter
  let persona : Persona :=
    { id := id, userId := ins.userId
      voice := jsOrString ins.voice "female", mood := jsOrString ins.mood "chill"
      customVoiceId := jsOrNull ins.customVoiceId
      customMoodSettings := jsOrNull ins.customMoodSettings
      createdAt := now, updatedAt := now }
  (persona,
   { st with personas := jsMapSet st.personas (fun p => p.id = id) persona
             personaIdCounter := st.personaIdCounter + 1 })

/-- The update record the persona route passes to `updatePersona`: the object
literal `{ voice, mood, customVoiceId, customMoodSettings }` always carries
all four keys, so the spread in `updatePersona` overwrites all four fields. -/
structure PersonaUpdates where
  voice : String
  mood : String
  customVoiceId : Option String
  customMoodSettings : Option String
  deriving Repr, DecidableEq

/-- `updatePersona`: no-op returning `undefined` when the id is unknown;
otherwise overwrite the updated fields and bump `updatedAt`. -/
def updatePersona (st : MemStorage) (id : Nat) (updates : PersonaUpdates)
    (now : Nat) : Option Persona × MemStorage :=
  match getPersona st id with
  | none => (none, st)
  | some persona =>
    let updated : Persona :=
      { persona with voice := updates.voice, mood := updates.mood
                     customVoiceId := updates.customVoiceId
                     customMoodSettings := updates.customMoodSettings
                     updatedAt := now }
    (some updated,
     { st with personas := jsMapSet st.personas (fun p => p.id = id) updated })

def getConversation (st : MemStorage) (id : Nat) : Option Conversation :=
  st.conversations.find? (fun c => c.id = id)

def getConversationsByUserId (st : MemStorage) (userId : Nat) : List Conversation :=
  st.conversations.filter (fun c => c.userId = userId)

/-- `createConversation`: next id, `title || 'New Conversation'`,
`personaId || null` (a 0 id is falsy in JS), `createdAt = updatedAt = now`. -/
def createConversation (st : MemStorage) (ins : InsertConversation) (now : Nat) :
    Conversation × MemStorage :=
  let id := st.conversationIdCounter
  let conversation : Conversation :=
    { id := id, userId := ins.userId
      personaId := match ins.personaId with
                   | none => none
                   | some p => if p = 0 then none else some p
      title := jsOrString ins.title "New Conversation"
      createdAt := now, updatedAt := now }
  (conversation,
   { st with conversations := jsMapSet st.conversations (fun c => c.id = id) conversation
             conversationIdCounter := st.conversationIdCounter + 1 })

/-- `updateConversationTitle`: overwrite the title and bump `updatedAt`. -/
def updateConversationTitle (st : MemStorage) (id : Nat) (title : String)
    (now : Nat) : Option Conversation × MemStorage :=
  match getConversation st id with
  | none => (none, st)
  | some conversation =>
    let updated : Conversation := { conversation with title := title, updatedAt := now }
    (some updated,
     { st with conversations := jsMapSet st.conversations (fun c => c.id = id) updated })

/-- Ascending `createdAt` ordering of messages, as the comparator
`(a, b) => aTime - bTime` sorts them (stable). -/
def msgLe (a b : Message) : Prop := a.createdAt ≤ b.createdAt

instance : DecidableRel msgLe := fun a b => Nat.decLe a.createdAt b.createdAt

instance : IsTotal Message msgLe := ⟨fun a b => Nat.le_total a.createdAt b.createdAt⟩

instance : IsTrans Message msgLe := ⟨fun _ _ _ => Nat.le_trans⟩

/-- `getMessagesByConversationId`: filter by conversation, then sort
ascending by `createdAt` (stable JS sort). -/
def getMessagesByConversationId (st : MemStorage) (conversationId : Nat) :
    List Message :=
  List.insertionSort msgLe
    (st.messages.filter (fun m => m.conversationId = conversationId))

/-- `createMessage`: next id, `audioUrl || null`, `createdAt: now`. Note the
in-memory implementation does NOT touch the parent conversation. -/
def createMessage (st : MemStorage) (ins : InsertMessage) (now : Nat) :
    Message × MemStorage :=
  let id := st.messageIdCounter
  let message : Message :=
    { id := id, conversationId := ins.conversationId, content := ins.content
      audioUrl := jsOrNull ins.audioUrl, isUserMessage := ins.isUserMessage
      createdAt := now }
  (message,
   { st with messages := jsMapSet st.messages (fun m => m.id = id) message
             messageIdCounter := st.messageIdCounter + 1 })

end MemStorage

/-! ## DatabaseStorage.createMessage (src/unnamed/part_011, first section)

Only the operation the claims need. The database's serial id is modelled
with the same counter; `t1` and `t2` are the values of the two successive
`new Date()` calls (the insert's `createdAt` and the conversation bump). -/

namespace DatabaseStorage

def createMessage (st : MemStorage) (ins : InsertMessage) (t1 t2 : Nat) :
    Message × MemStorage :=
  let id := st.messageIdCounter
  let message : Message :=
    { id := id, conversationId := ins.conversationId, content := ins.content
      audioUrl := ins.audioUrl, isUserMessage := ins.isUserMessage
      createdAt := t1 }
  (message,
   { st with
       messages := st.messages ++ [message]
       messageIdCounter := st.messageIdCounter + 1
       conversations := st.conversations.map (fun c =>
         if c.id = ins.conversationId then { c with updatedAt := t2 } else c) })

end DatabaseStorage

/-! ## Mood prompts and prompt assembly
(src/server/lib/utils.ts getMoodPrompt, duplicated verbatim in
src/server/lib/openai.ts; prompt assembly from getAIResponse) -/

def cheerfulPrompt : String :=
  "You're an AI friend named Besty who's cheerful, optimistic, and energetic. You see the bright side of things and often use uplifting language, emoticons, and expressions of excitement. Be encouraging and positive in your responses, while still acknowledging the user's emotions. Your goal is to be a supportive friend who listens and responds with warmth and enthusiasm."

def chillPrompt : String :=
  "You're an AI friend named Besty who's relaxed, laid-back, and easygoing. You use casual language and aren't easily excited or worried. Your tone is calm and measured, and you often help the user see the bigger picture without getting caught up in small details. Your goal is to be a grounding presence and a good listener."

def sassyPrompt : String :=
  "You're an AI friend named Besty who's witty, sarcastic, and doesn't shy away from playful teasing. You're straight-talking and sometimes use humor to make points. While still supportive, you're not afraid to challenge the user's assumptions or give them a reality check when needed. Your goal is to be an honest friend who keeps things real while still being caring."

def romanticPrompt : String :=
  "You're an AI friend named Besty who's warm, compassionate, and emotionally attuned. You focus on feelings and relationships, often asking about emotional impacts and connections. Your language is expressive and you readily share in the user's emotional experiences. Your goal is to create a deep emotional connection and make the user feel truly understood."

def realistPrompt : String :=
  "You're an AI friend named Besty who's practical, direct, and no-nonsense. You focus on facts, logical analysis, and actionable solutions. You avoid unnecessary embellishment and get straight to the point, helping the user see situations clearly and objectively. Your goal is to provide sound, practical advice and clear perspective."

/-- The `moodPrompts` record of `getMoodPrompt`. -/
def moodPrompts : List (String × String) :=
  [("cheerful", cheerfulPrompt), ("chill", chillPrompt), ("sassy", sassyPrompt),
   ("romantic", romanticPrompt), ("realist", realistPrompt)]

/-- `getMoodPrompt(mood)`: `moodPrompts[mood] || moodPrompts.chill` (every
template is a non-empty string, so the `||` fallback fires exactly when the
record lookup misses). -/
def getMoodPrompt (mood : String) : String :=
  (moodPrompts.lookup mood).getD chillPrompt

/-- One element of the OpenAI `messages` array. -/
structure ChatTurn where
  role : String
  content : String
  deriving Repr, DecidableEq

/-- The `promptMessages` array assembled by `getAIResponse` before calling
the chat-completion API: system prompt from the mood, then the stored
history with `isUserMessage` mapped to the role, then the new user text. -/
def promptMessages (message : String) (messages : List Message)
    (personaMood : String) : List ChatTurn :=
  let conversationHistory := messages.map (fun msg =>
    { role := if msg.isUserMessage then "user" else "assistant"
      content := msg.content : ChatTurn })
  let systemPrompt := getMoodPrompt personaMood
  { role := "system", content := systemPrompt } ::
    (conversationHistory ++ [{ role := "user", content := message }])

/-! ## String helpers for the keyword fallback -/

/-- Does the character list start with the pattern? -/
def startsWithChars : List Char → List Char → Bool
  | _, [] => true
  | [], _ :: _ => false
  | a :: s, b :: t => a = b && startsWithChars s t

/-- Does the character list contain the pattern as a contiguous run? -/
def containsChars (pat : List Char) : List Char → Bool
  | [] => startsWithChars [] pat
  | a :: s => startsWithChars (a :: s) pat || containsChars pat s

/-- JS `s.includes(sub)`. -/
def jsIncludes (s sub : String) : Bool :=
  containsChars sub.data s.data

/-- JS `s.toLowerCase()` (ASCII, which is all the keyword matching uses). -/
def jsToLower (s : String) : String :=
  ⟨s.data.map Char.toLower⟩

/-! ## POST /api/chat (src/unnamed/part_011, registerRoutes)

The handler's fallback replies and keyword dispatch, then the handler. -/

def greetingReply : String :=
  "Hello! I'm your AI Besty. It's nice to chat with you today! What's on your mind?"

def wellBeingReply : String :=
  "I'm doing well, thanks for asking! I'm here to listen and chat. How are YOU feeling today?"

def helpReply : String :=
  "I'm here to help! You can talk to me about your day, your feelings, or anything else that's on your mind."

def empatheticReply : String :=
  "I'm sorry to hear that things aren't going well. Would you like to tell me more about what's bothering you?"

def listeningReply : String :=
  "I'm listening! Tell me more about what's on your mind today."

/-- The keyword heuristic run when `getAIResponse` throws: dispatch on the
lowercased user message. The sentiment branch checks only `'bad'` and
`'sad'`. -/
def chatFallback (message : String) : String :=
  let lowerMessage := jsToLower message
  if jsIncludes lowerMessage "hello" || jsIncludes lowerMessage "hi " then
    greetingReply
  else if jsIncludes lowerMessage "how are you" then
    wellBeingReply
  else if jsIncludes lowerMessage "help" then
    helpReply
  else if jsIncludes lowerMessage "bad" || jsIncludes lowerMessage "sad" then
    empatheticReply
  else
    listeningReply

/-- Outcome of the `getAIResponse` call as the handler observes it:
a returned string, or a thrown error. -/
inductive AIOutcome where
  | ok (text : String)
  | fail
  deriving Repr, DecidableEq

/-- Response of POST /api/chat: HTTP status plus the JSON body fields the
handler sets (`text` on success, `success` everywhere). -/
structure ChatResponse where
  status : Nat
  text : Option String
  success : Bool
  deriving Repr, DecidableEq

/-- POST /api/chat. `uid` is the authenticated requester established by
`requireAuth`; `ai` is the observed outcome of the `getAIResponse` call;
`now` is the clock at the `createMessage` call. Body fields `message` and
`conversationId` with their `!x` falsiness checks (`0` is the falsy id). -/
def postChat (st : MemStorage) (uid : Nat) (message : String)
    (conversationId : Nat) (ai : AIOutcome) (now : Nat) :
    ChatResponse × MemStorage :=
  if message = "" ∨ conversationId = 0 then
    ({ status := 400, text := none, success := false }, st)
  else
    match MemStorage.getConversation st conversationId with
    | none => ({ status := 404, text := none, success := false }, st)
    | some conversation =>
      if conversation.userId ≠ uid then
        ({ status := 403, text := none, success := false }, st)
      else
        let aiResponseText :=
          match ai with
          | .ok t => t
          | .fail => chatFallback message
        let (_, st') := MemStorage.createMessage st
          { conversationId := conversationId, content := aiResponseText
            audioUrl := none, isUserMessage := false } now
        ({ status := 200, text := some aiResponseText, success := true }, st')

/-! ## POST /api/personas (src/unnamed/part_011, registerRoutes; the
src/server/index.ts copy is line-for-line identical in logic) -/

/-- The request body fields the persona route destructures. -/
structure PersonaBody where
  voice : Option String
  mood : Option String
  customVoiceId : Option String
  customMoodSettings : Option String
  deriving Repr, DecidableEq

structure PersonaResponse where
  status : Nat
  persona : Option Persona
  deriving Repr, DecidableEq

/-- POST /api/personas: 400 when `!voice || !mood`; update the first
existing persona of the user in place when one exists, else create. -/
def postPersonas (st : MemStorage) (uid : Nat) (body : PersonaBody)
    (now : Nat) : PersonaResponse × MemStorage :=
  if jsFalsyString body.voice || jsFalsyString body.mood then
    ({ status := 400, persona := none }, st)
  else
    match MemStorage.getPersonasByUserId st uid with
    | existing0 :: _ =>
      let (updated, st') := MemStorage.updatePersona st existing0.id
        { voice := (body.voice).getD "", mood := (body.mood).getD ""
          customVoiceId := body.customVoiceId
          customMoodSettings := body.customMoodSettings } now
      ({ status := 200, persona := updated }, st')
    | [] =>
      let (created, st') := MemStorage.createPersona st
        { userId := uid, voice := body.voice, mood := body.mood
          customVoiceId := body.customVoiceId
          customMoodSettings := body.customMoodSettings } now
      ({ status := 201, persona := some created }, st')

/-- One persona-upsert request: requester id, body, clock value. -/
def applyUpserts (st : MemStorage) (ops : List (Nat × PersonaBody × Nat)) :
    MemStorage :=
  ops.foldl (fun st op => (postPersonas st op.1 op.2.1 op.2.2).2) st

/-! ## GET /api/conversations/recent (src/unnamed/part_011, registerRoutes)

The handler sorts the user's conversations with the comparator
`(a, b) => bTime - aTime` over `createdAt` and takes element 0. -/

/-- Descending `createdAt` ordering of conversations (the comparator
`bTime - aTime`, stable). -/
def convCreatedDesc (a b : Conversation) : Prop := b.createdAt ≤ a.createdAt

instance : DecidableRel convCreatedDesc := fun a b => Nat.decLe b.createdAt a.createdAt

instance : IsTotal Conversation convCreatedDesc :=
  ⟨fun a b => (Nat.le_total b.createdAt a.createdAt).imp id id⟩

instance : IsTrans Conversation convCreatedDesc :=
  ⟨fun _ _ _ h1 h2 => Nat.le_trans h2 h1⟩

structure RecentResponse where
  status : Nat
  conversation : Option Conversation
  messages : List Message
  deriving Repr, DecidableEq

/-- GET /api/conversations/recent: 404 when the user has no conversations;
otherwise the head of the user's conversations sorted by descending
`createdAt`, with that conversation's (ascending) message list. The sorted
list is empty exactly when the filtered list is, so the single `match`
covers the source's `length === 0` check. -/
def getRecentConversation (st : MemStorage) (uid : Nat) : RecentResponse :=
  let conversations := MemStorage.getConversationsByUserId st uid
  match List.insertionSort convCreatedDesc conversations with
  | [] => { status := 404, conversation := none, messages := [] }
  | recentConversation :: _ =>
    { status := 200, conversation := some recentConversation
      messages := MemStorage.getMessagesByConversationId st recentConversation.id }

/-! ## GET /api/conversations/:id/messages (src/unnamed/part_011) -/

structure MessagesResponse where
  status : Nat
  messages : Option (List Message)
  deriving Repr, DecidableEq

/-- GET /api/conversations/:id/messages, after the numeric id has been
parsed: 404 when the conversation is unknown, 403 when it is not owned by
the requester, else the ascending message list. -/
def getConversationMessages (st : MemStorage) (uid : Nat) (conversationId : Nat) :
    MessagesResponse :=
  match MemStorage.getConversation st conversationId with
  | none => { status := 404, messages := none }
  | some conversation =>
    if conversation.userId ≠ uid then
      { status := 403, messages := none }
    else
      { status := 200
        messages := some (MemStorage.getMessagesByConversationId st conversationId) }

/-! ## POST /api/messages (src/unnamed/part_011, registerRoutes) -/

/-- The request body of POST /api/messages; `isUserMessage` is `none` when
the field is absent (`undefined`). -/
structure MessageBody where
  conversationId : Nat
  content : String
  audioUrl : Option String
  isUserMessage : Option Bool
  deriving Repr, DecidableEq

structure MessageResponse where
  status : Nat
  message : Option Message
  deriving Repr, DecidableEq

/-- POST /api/messages: 400 when `!conversationId || !content`, 404 when the
conversation is unknown, 403 when not owned; otherwise store the message
with `isUserMessage === undefined ? true : isUserMessage`. -/
def postMessages (st : MemStorage) (uid : Nat) (body : MessageBody)
    (now : Nat) : MessageResponse × MemStorage :=
  if body.conversationId = 0 ∨ body.content = "" then
    ({ status := 400, message := none }, st)
  else
    match MemStorage.getConversation st body.conversationId with
    | none => ({ status := 404, message := none }, st)
    | some conversation =>
      if conversation.userId ≠ uid then
        ({ status := 403, message := none }, st)
      else
        let (newMessage, st') := MemStorage.createMessage st
          { conversationId := body.conversationId, content := body.content
            audioUrl := body.audioUrl
            isUserMessage := (body.isUserMessage).getD true } now
        ({ status := 201, message := some newMessage }, st')

/-! ## Helper lemmas about the JS map model -/

/-- The value written by `jsMapSet` is in the resulting list. -/
theorem mem_jsMapSet_self {α : Type} (l : List α) (key : α → Bool) (v : α) :
    v ∈ jsMapSet l key v := by
  unfold jsMapSet
  split
  · next h =>
    obtain ⟨x, hx, hkx⟩ := List.any_eq_true.mp h
    exact List.mem_map.mpr ⟨x, hx, by simp [hkx]⟩
  · simp

/-- Looking up the key after overwriting every key-matching entry finds the
written value. -/
theorem find?_map_overwrite {α : Type} (l : List α) (key : α → Bool) (v : α)
    (hv : key v = true) (hl : l.any key = true) :
    (l.map (fun x => if key x then v else x)).find? key = some v := by
  induction l with
  | nil => simp at hl
  | cons a t ih =>
    by_cases ha : key a = true
    · simp [ha, List.find?, hv]
    · have ht : t.any key = true := by simpa [ha] using hl
      simpa [ha, List.find?] using ih ht

/-- Looking up the key after `jsMapSet` over a list that contained the key
finds the written value. -/
theorem find?_jsMapSet {α : Type} (l : List α) (key : α → Bool) (v : α)
    (hv : key v = true) (hl : l.any key = true) :
    (jsMapSet l key v).find? key = some v := by
  unfold jsMapSet
  rw [if_pos hl]
  exact find?_map_overwrite l key v hv hl

/-! ## C7 — persona validation -/

/-- C7 counterexample: the claim says a voice outside {male, female, custom}
or a mood outside the mood enum is rejected with 400 and nothing is
persisted; but POST /api/personas only checks `!voice || !mood`, so
`voice = "robot"`, `mood = "angry"` is accepted with 201 and a persona row
is created with those literal values. -/
theorem C7_enum_not_checked_counterexample :
    (postPersonas MemStorage.init 1
      { voice := some "robot", mood := some "angry"
        customVoiceId := none, customMoodSettings := none } 7).1.status = 201 ∧
    ((postPersonas MemStorage.init 1
      { voice := some "robot", mood := some "angry"
        customVoiceId := none, customMoodSettings := none } 7).2).personas =
      [{ id := 1, userId := 1, voice := "robot", mood := "angry"
         customVoiceId := none, customMoodSettings := none
         createdAt := 7, updatedAt := 7 }] ∧
    "robot" ∉ (["male", "female", "custom"] : List String) ∧
    "angry" ∉ (["cheerful", "chill", "sassy", "romantic", "realist", "custom"] : List String) := by
  refine ⟨rfl, rfl, by decide, by decide⟩

/-- C7 (amended): POST /api/personas fails with 400, leaving the store
untouched, exactly when `voice` or `mood` is missing/empty (JS-falsy); the
enumerated sets are not checked, so any non-falsy strings pass validation
(the response is then 200 or 201, never 400). -/
theorem C7_validation_amended (st : MemStorage) (uid : Nat) (body : PersonaBody)
    (now : Nat) :
    ((jsFalsyString body.voice || jsFalsyString body.mood) = true →
      postPersonas st uid body now = ({ status := 400, persona := none }, st)) ∧
    ((jsFalsyString body.voice || jsFalsyString body.mood) = false →
      (postPersonas st uid body now).1.status ≠ 400) := by
  constructor
  · intro h
    unfold postPersonas
    rw [if_pos h]
  · intro h
    unfold postPersonas
    rw [if_neg (by simp [h])]
    rcases hM : MemStorage.getPersonasByUserId st uid with _ | ⟨p, rest⟩ <;> simp

/-- C7 witness: a concrete missing-voice body is rejected with 400 and the
store is unchanged. -/
theorem C7_validation_witness :
    postPersonas MemStorage.init 1
      { voice := none, mood := some "chill"
        customVoiceId := none, customMoodSettings := none } 0 =
      ({ status := 400, persona := none }, MemStorage.init) :=
  (C7_validation_amended MemStorage.init 1
    { voice := none, mood := some "chill"
      customVoiceId := none, customMoodSettings := none } 0).1 (by decide)

/-! ## C8 — mood prompt totality and prompt assembly -/

/-- C8: `getMoodPrompt` is total and deterministic with exactly the five
canonical templates (pairwise distinct), any mood outside the five keys
yields exactly the chill template, and the prompt context assembled for the
chat completion is the mood's system instruction, then the stored history
mapped to user/assistant roles in order, then the new user text. -/
theorem C8_mood_prompt_total :
    (getMoodPrompt "cheerful" = cheerfulPrompt ∧ getMoodPrompt "chill" = chillPrompt ∧
     getMoodPrompt "sassy" = sassyPrompt ∧ getMoodPrompt "romantic" = romanticPrompt ∧
     getMoodPrompt "realist" = realistPrompt) ∧
    ([cheerfulPrompt, chillPrompt, sassyPrompt, romanticPrompt, realistPrompt] :
      List String).Nodup ∧
    (∀ mood : String, mood ≠ "cheerful" → mood ≠ "chill" → mood ≠ "sassy" →
      mood ≠ "romantic" → mood ≠ "realist" → getMoodPrompt mood = chillPrompt) ∧
    (∀ (message : String) (messages : List Message) (personaMood : String),
      promptMessages message messages personaMood =
        { role := "system", content := getMoodPrompt personaMood } ::
          (messages.map (fun msg =>
            { role := if msg.isUserMessage then "user" else "assistant"
              content := msg.content : ChatTurn }) ++
           [{ role := "user", content := message }])) := by
  refine ⟨⟨rfl, rfl, rfl, rfl, rfl⟩, by decide, ?_, fun _ _ _ => rfl⟩
  intro mood h1 h2 h3 h4 h5
  have e1 : (mood == "cheerful") = false := beq_eq_false_iff_ne.mpr h1
  have e2 : (mood == "chill") = false := beq_eq_false_iff_ne.mpr h2
  have e3 : (mood == "sassy") = false := beq_eq_false_iff_ne.mpr h3
  have e4 : (mood == "romantic") = false := beq_eq_false_iff_ne.mpr h4
  have e5 : (mood == "realist") = false := beq_eq_false_iff_ne.mpr h5
  simp [getMoodPrompt, moodPrompts, List.lookup, e1, e2, e3, e4, e5]

/-- C8 witness: an unknown mood resolves to the chill template. -/
theorem C8_mood_prompt_witness : getMoodPrompt "mysterious" = chillPrompt :=
  C8_mood_prompt_total.2.2.1 "mysterious" (by decide) (by decide) (by decide)
    (by decide) (by decide)

/-! ## C9 — isUserMessage defaults to true -/

/-- C9: when a POST /api/messages body that passes validation and ownership
omits `isUserMessage`, the stored message has `isUserMessage = true`. -/
theorem C9_isUserMessage_default (st : MemStorage) (uid : Nat)
    (body : MessageBody) (now : Nat) (conversation : Conversation)
    (hdef : body.isUserMessage = none)
    (hcid : body.conversationId ≠ 0) (hcontent : body.content ≠ "")
    (hconv : MemStorage.getConversation st body.conversationId = some conversation)
    (hown : conversation.userId = uid) :
    (postMessages st uid body now).1.status = 201 ∧
    ∃ m, (postMessages st uid body now).1.message = some m ∧
      m.isUserMessage = true ∧ m.createdAt = now ∧ m.content = body.content ∧
      m ∈ ((postMessages st uid body now).2).messages := by
  have h1 : ¬(body.conversationId = 0 ∨ body.content = "") := by
    simp [hcid, hcontent]
  simp only [postMessages, if_neg h1, hconv]
  have h2 : ¬(conversation.userId ≠ uid) := by simp [hown]
  simp only [if_neg h2, MemStorage.createMessage]
  refine ⟨trivial, _, rfl, by simp [hdef], rfl, rfl, ?_⟩
  exact mem_jsMapSet_self _ _ _

/-- C9 witness: a concrete request without `isUserMessage` stores a user
message. -/
theorem C9_isUserMessage_witness :
    (postMessages
      (MemStorage.createConversation MemStorage.init
        { userId := 1, personaId := none, title := none } 0).2 1
      { conversationId := 1, content := "hello", audioUrl := none
        isUserMessage := none } 3).1.status = 201 :=
  (C9_isUserMessage_default
    (MemStorage.createConversation MemStorage.init
      { userId := 1, personaId := none, title := none } 0).2 1
    { conversationId := 1, content := "hello", audioUrl := none
      isUserMessage := none } 3
    { id := 1, userId := 1, personaId := none, title := "New Conversation"
      createdAt := 0, updatedAt := 0 }
    rfl (by decide) (by decide) (by decide) rfl).1

/-! ## Concrete fixture: a store holding one conversation (id 1) owned by
user 1, created at time 0. -/

def convFixture : MemStorage :=
  (MemStorage.createConversation MemStorage.init
    { userId := 1, personaId := none, title := none } 0).2

/-! ## C1 — chat-completion failure fallback -/

/-- C1 counterexample: the claim lists `sucks` among the sentiment keywords
that trigger the empathetic reply, but the handler only checks `bad` and
`sad`; with the gateway failing, the message "that sucks" (which contains
the word `sucks` and no other keyword) gets the generic listening reply. -/
theorem C1_sucks_counterexample :
    jsIncludes (jsToLower "that sucks") "sucks" = true ∧
    (postChat convFixture 1 "that sucks" 1 AIOutcome.fail 5).1 =
      { status := 200, text := some listeningReply, success := true } ∧
    listeningReply ≠ empatheticReply := by
  refine ⟨rfl, rfl, by decide⟩

/-- C1 (amended): when the chat-completion call fails, POST /api/chat still
completes the turn: it returns 200/success with a deterministic fallback
chosen by keyword matching on the lowercased text (`hello` or `hi ` →
greeting reply; `how are you` → well-being reply; `help` → help reply;
sentiment words `bad`/`sad` (not `sucks`) → empathetic reply; else the
generic listening reply) and persists that fallback as an AI message
(`isUserMessage = false`). -/
theorem C1_chat_fallback_amended (st : MemStorage) (uid : Nat)
    (message : String) (conversationId : Nat) (now : Nat)
    (conversation : Conversation)
    (hmsg : message ≠ "") (hcid : conversationId ≠ 0)
    (hconv : MemStorage.getConversation st conversationId = some conversation)
    (hown : conversation.userId = uid) :
    (postChat st uid message conversationId AIOutcome.fail now).1 =
      { status := 200, text := some (chatFallback message), success := true } ∧
    (∃ m, m ∈ ((postChat st uid message conversationId AIOutcome.fail now).2).messages ∧
      m.isUserMessage = false ∧ m.content = chatFallback message ∧
      m.conversationId = conversationId ∧ m.createdAt = now) ∧
    chatFallback message =
      (if jsIncludes (jsToLower message) "hello" || jsIncludes (jsToLower message) "hi " then
        greetingReply
      else if jsIncludes (jsToLower message) "how are you" then wellBeingReply
      else if jsIncludes (jsToLower message) "help" then helpReply
      else if jsIncludes (jsToLower message) "bad" || jsIncludes (jsToLower message) "sad" then
        empatheticReply
      else listeningReply) := by
  have h1 : ¬(message = "" ∨ conversationId = 0) := by simp [hmsg, hcid]
  simp only [postChat, if_neg h1, hconv]
  have h2 : ¬(conversation.userId ≠ uid) := by simp [hown]
  simp only [if_neg h2, MemStorage.createMessage]
  refine ⟨trivial, ⟨_, mem_jsMapSet_self _ _ _, rfl, rfl, rfl, rfl⟩, rfl⟩

/-- C1 witness: with a failing gateway, a concrete greeting turn completes
with 200 and the fallback text. -/
theorem C1_chat_fallback_witness :
    (postChat convFixture 1 "Hello!" 1 AIOutcome.fail 5).1 =
      { status := 200, text := some (chatFallback "Hello!"), success := true } :=
  (C1_chat_fallback_amended convFixture 1 "Hello!" 1 5
    { id := 1, userId := 1, personaId := none, title := "New Conversation"
      createdAt := 0, updatedAt := 0 }
    (by decide) (by decide) rfl rfl).1

/-! ## C2 — createMessage and the parent conversation's updatedAt -/

/-- C2 counterexample: the wired-in `MemStorage.createMessage` does not bump
the parent conversation's `updatedAt`: appending a message at time 5 to a
conversation created at time 0 leaves `updatedAt = 0`, strictly below the
message's `createdAt`. -/
theorem C2_mem_no_bump_counterexample :
    ((MemStorage.createMessage convFixture
      { conversationId := 1, content := "hey", audioUrl := none
        isUserMessage := true } 5).1).createdAt = 5 ∧
    ((MemStorage.createMessage convFixture
      { conversationId := 1, content := "hey", audioUrl := none
        isUserMessage := true } 5).1).conversationId = 1 ∧
    ∃ c, MemStorage.getConversation ((MemStorage.createMessage convFixture
      { conversationId := 1, content := "hey", audioUrl := none
        isUserMessage := true } 5).2) 1 = some c ∧
      c.updatedAt < ((MemStorage.createMessage convFixture
        { conversationId := 1, content := "hey", audioUrl := none
          isUserMessage := true } 5).1).createdAt := by
  refine ⟨rfl, rfl,
    { id := 1, userId := 1, personaId := none, title := "New Conversation"
      createdAt := 0, updatedAt := 0 }, rfl, by decide⟩

/-- C2 (amended): in the `DatabaseStorage` implementation, `createMessage`
assigns the message `createdAt` from the insert-time clock and then sets the
parent conversation's `updatedAt` from the (no earlier) second clock read,
so the parent's `updatedAt` is ≥ the message's `createdAt`; the wired-in
`MemStorage.createMessage`, by contrast, leaves the conversations table
completely unchanged. -/
theorem C2_db_bump_amended (st : MemStorage) (ins : InsertMessage)
    (t1 t2 : Nat) (h12 : t1 ≤ t2) :
    ((DatabaseStorage.createMessage st ins t1 t2).1).createdAt = t1 ∧
    (∀ c ∈ ((DatabaseStorage.createMessage st ins t1 t2).2).conversations,
      c.id = ins.conversationId →
        c.updatedAt = t2 ∧
        ((DatabaseStorage.createMessage st ins t1 t2).1).createdAt ≤ c.updatedAt) ∧
    (∀ (st2 : MemStorage) (ins2 : InsertMessage) (t : Nat),
      ((MemStorage.createMessage st2 ins2 t).2).conversations = st2.conversations) := by
  refine ⟨rfl, ?_, fun _ _ _ => rfl⟩
  intro c hc hcid
  simp only [DatabaseStorage.createMessage] at hc
  obtain ⟨c0, hc0, heq⟩ := List.mem_map.mp hc
  by_cases h : c0.id = ins.conversationId
  · rw [if_pos h] at heq
    subst heq
    exact ⟨rfl, h12⟩
  · rw [if_neg h] at heq
    subst heq
    exact absurd hcid h

/-- C2 witness: concrete clocks 5 ≤ 6 through the DatabaseStorage model. -/
theorem C2_db_bump_witness :
    ((DatabaseStorage.createMessage convFixture
      { conversationId := 1, content := "hey", audioUrl := none
        isUserMessage := false } 5 6).1).createdAt = 5 :=
  (C2_db_bump_amended convFixture
    { conversationId := 1, content := "hey", audioUrl := none
      isUserMessage := false } 5 6 (by decide)).1

/-! ## C4 — verify succeeds at most once per token -/

/-- C4: `validateAuthToken` (the storage behind POST /api/auth/verify) fails
when the token is unknown, already used, or past expiry; on success it
returns a user marked `emailVerified`, stores the token as used, and a
second call with the same token then fails. -/
theorem C4_verify_at_most_once (st : MemStorage) (tok : String) (now now' : Nat) :
    (st.authTokens.find? (fun a => a.token = tok) = none →
      MemStorage.validateAuthToken st tok now = (none, st)) ∧
    (∀ a, st.authTokens.find? (fun a => a.token = tok) = some a →
      (a.used = true ∨ a.expires < now) →
      MemStorage.validateAuthToken st tok now = (none, st)) ∧
    (∀ u st', MemStorage.validateAuthToken st tok now = (some u, st') →
      u.emailVerified = true ∧
      (∃ a', st'.authTokens.find? (fun x => x.token = tok) = some a' ∧ a'.used = true) ∧
      (MemStorage.validateAuthToken st' tok now').1 = none) := by
  refine ⟨?_, ?_, ?_⟩
  · intro h
    simp only [MemStorage.validateAuthToken, h]
  · intro a hfind hcond
    simp only [MemStorage.validateAuthToken, hfind, if_pos hcond]
  · intro u st' h
    rcases hfind : st.authTokens.find? (fun a => a.token = tok) with _ | a
    · simp only [MemStorage.validateAuthToken, hfind] at h
      simp at h
    · have htok : a.token = tok := by
        have := List.find?_some hfind
        exact of_decide_eq_true this
      have hmem : a ∈ st.authTokens := List.mem_of_find?_eq_some hfind
      have hany : st.authTokens.any (fun x => decide (x.token = tok)) = true :=
        List.any_eq_true.mpr ⟨a, hmem, by simp [htok]⟩
      have hfind2 : (jsMapSet st.authTokens (fun x => decide (x.token = tok))
          { a with used := true }).find? (fun x => decide (x.token = tok)) =
          some { a with used := true } :=
        find?_jsMapSet _ _ _ (by simp [htok]) hany
      by_cases hcond : a.used = true ∨ a.expires < now
      · simp only [MemStorage.validateAuthToken, hfind, if_pos hcond] at h
        simp at h
      · simp only [MemStorage.validateAuthToken, hfind, if_neg hcond] at h
        rcases hU : st.users.find? (fun x => x.email = a.email) with _ | u0
        all_goals simp only [MemStorage.getUserByEmail, MemStorage.createUser, hU] at h
        all_goals {
          have h1 := congrArg Prod.fst h
          have h2 := congrArg Prod.snd h
          simp only [] at h1 h2
          injection h1 with h1
          subst h1
          have hA : st'.authTokens =
              jsMapSet st.authTokens (fun x => decide (x.token = tok))
                { a with used := true } := by
            rw [← h2]
          refine ⟨rfl, ⟨{ a with used := true }, by rw [hA]; exact hfind2, rfl⟩, ?_⟩
          simp [MemStorage.validateAuthToken, hA, hfind2]
        }

/-! ## Concrete fixture: a store holding one unused auth token issued at
time 0 for a yet-unknown user. -/

def tokenFixture : MemStorage :=
  (MemStorage.createAuthToken MemStorage.init "a@b.com" "tok123" 0).2

/-- C4 witness: a concrete second verification of an already-redeemed token
fails. -/
theorem C4_verify_witness :
    (MemStorage.validateAuthToken
      (MemStorage.validateAuthToken tokenFixture "tok123" 10).2 "tok123" 11).1 = none :=
  ((C4_verify_at_most_once tokenFixture "tok123" 10 11).2.2
    { id := 1, email := "a@b.com", emailVerified := true, createdAt := 10 }
    (MemStorage.validateAuthToken tokenFixture "tok123" 10).2 (by decide)).2.2

/-! ## C10 — successful validation can create a brand-new verified user -/

/-- C10: for a stored, unused, unexpired token whose email has no user row,
`MemStorage.validateAuthToken` succeeds, returning a freshly created user
(next id, the token's email) with `emailVerified = true`, stored in the
user map, and the user id counter advanced. -/
theorem C10_validate_creates_user (st : MemStorage) (tok : String) (now : Nat)
    (a : AuthToken)
    (hfind : st.authTokens.find? (fun x => x.token = tok) = some a)
    (hused : a.used = false) (hexp : ¬ a.expires < now)
    (hnouser : MemStorage.getUserByEmail st a.email = none) :
    ∃ u st', MemStorage.validateAuthToken st tok now = (some u, st') ∧
      u.emailVerified = true ∧ u.id = st.userIdCounter ∧ u.email = a.email ∧
      u ∈ st'.users ∧ st'.userIdCounter = st.userIdCounter + 1 := by
  have hcond : ¬(a.used = true ∨ a.expires < now) := by simp [hused, hexp]
  simp only [MemStorage.validateAuthToken, hfind, if_neg hcond]
  simp only [MemStorage.getUserByEmail] at hnouser
  simp only [MemStorage.getUserByEmail, MemStorage.createUser, hnouser]
  exact ⟨_, _, rfl, rfl, rfl, rfl, mem_jsMapSet_self _ _ _, rfl⟩

/-- C10 witness: validating the fixture token creates and returns a new
verified user for `a@b.com`. -/
theorem C10_validate_creates_witness :
    ∃ u st', MemStorage.validateAuthToken tokenFixture "tok123" 10 = (some u, st') ∧
      u.emailVerified = true ∧ u.id = tokenFixture.userIdCounter ∧
      u.email = "a@b.com" ∧ u ∈ st'.users ∧
      st'.userIdCounter = tokenFixture.userIdCounter + 1 :=
  C10_validate_creates_user tokenFixture "tok123" 10
    { id := 1, email := "a@b.com", token := "tok123", expires := 1800000
      used := false, createdAt := 0 } (by decide) rfl (by decide) rfl

/-! ## C5 — ownership checks on conversation reads and message writes -/

/-- C5: for an existing conversation not owned by the authenticated
requester, reading its messages and posting a message into it both fail
with 403 (not 404) and the store is unchanged (no message created); when the
requester owns the conversation, neither operation is rejected by this
check. -/
theorem C5_ownership_enforced (st : MemStorage) (uid cid : Nat)
    (conversation : Conversation) (body : MessageBody) (now : Nat)
    (hconv : MemStorage.getConversation st cid = some conversation)
    (hbid : body.conversationId = cid) (hcid : cid ≠ 0)
    (hcontent : body.content ≠ "") :
    (conversation.userId ≠ uid →
      (getConversationMessages st uid cid).status = 403 ∧
      (getConversationMessages st uid cid).messages = none ∧
      (postMessages st uid body now).1.status = 403 ∧
      (postMessages st uid body now).2 = st) ∧
    (conversation.userId = uid →
      (getConversationMessages st uid cid).status ≠ 403 ∧
      (postMessages st uid body now).1.status ≠ 403) := by
  subst hbid
  have h1 : ¬(body.conversationId = 0 ∨ body.content = "") := by
    simp [hcid, hcontent]
  constructor
  · intro hne
    simp only [getConversationMessages, postMessages, if_neg h1, hconv, if_pos hne]
    exact ⟨trivial, trivial, trivial, trivial⟩
  · intro heq
    have h2 : ¬(conversation.userId ≠ uid) := by simp [heq]
    simp only [getConversationMessages, postMessages, if_neg h1, hconv, if_neg h2,
      MemStorage.createMessage]
    exact ⟨by decide, by decide⟩

/-- C5 witness: with the one-conversation fixture (owner user 1), requester
user 2 is rejected with 403 and no state change, and the owner is not
rejected by the ownership check. -/
theorem C5_ownership_witness :
    ((getConversationMessages convFixture 2 1).status = 403 ∧
      (getConversationMessages convFixture 2 1).messages = none ∧
      (postMessages convFixture 2
        { conversationId := 1, content := "hey", audioUrl := none
          isUserMessage := none } 5).1.status = 403 ∧
      (postMessages convFixture 2
        { conversationId := 1, content := "hey", audioUrl := none
          isUserMessage := none } 5).2 = convFixture) ∧
    (getConversationMessages convFixture 1 1).status ≠ 403 :=
  ⟨(C5_ownership_enforced convFixture 2 1
      { id := 1, userId := 1, personaId := none, title := "New Conversation"
        createdAt := 0, updatedAt := 0 }
      { conversationId := 1, content := "hey", audioUrl := none
        isUserMessage := none } 5 rfl rfl (by decide) (by decide)).1 (by decide),
   ((C5_ownership_enforced convFixture 1 1
      { id := 1, userId := 1, personaId := none, title := "New Conversation"
        createdAt := 0, updatedAt := 0 }
      { conversationId := 1, content := "hey", audioUrl := none
        isUserMessage := none } 5 rfl rfl (by decide) (by decide)).2 rfl).1⟩

/-! ## C3 — GET /api/conversations/recent picks by createdAt, not updatedAt -/

/-- Fixture: user 1 has conversation 1 (created at 0, title edited at 2, so
`updatedAt = 2`) and conversation 2 (created at 1, `updatedAt = 1`). -/
def recentFixture : MemStorage :=
  (MemStorage.updateConversationTitle
    (MemStorage.createConversation
      (MemStorage.createConversation MemStorage.init
        { userId := 1, personaId := none, title := none } 0).2
      { userId := 1, personaId := none, title := none } 1).2 1 "first" 2).2

/-- C3 counterexample: the recent-conversation route sorts by `createdAt`
descending, so it returns conversation 2 (`updatedAt = 1`) although
conversation 1 has the strictly greater `updatedAt = 2`. -/
theorem C3_recent_by_createdAt_counterexample :
    (getRecentConversation recentFixture 1).conversation =
      some { id := 2, userId := 1, personaId := none, title := "New Conversation"
             createdAt := 1, updatedAt := 1 } ∧
    ∃ c, c ∈ MemStorage.getConversationsByUserId recentFixture 1 ∧
      (1 : Nat) < c.updatedAt := by
  refine ⟨rfl,
    { id := 1, userId := 1, personaId := none, title := "first"
      createdAt := 0, updatedAt := 2 }, by decide, by decide⟩

/-- C3 (amended): for a user with no conversations the route returns the
empty 404 result; otherwise it returns a conversation of that user whose
`createdAt` (not `updatedAt`) is maximal among the user's conversations,
together with that conversation's full message list sorted ascending by
`createdAt`. -/
theorem C3_recent_amended (st : MemStorage) (uid : Nat) :
    (MemStorage.getConversationsByUserId st uid = [] →
      getRecentConversation st uid =
        { status := 404, conversation := none, messages := [] }) ∧
    (∀ c, (getRecentConversation st uid).conversation = some c →
      c ∈ MemStorage.getConversationsByUserId st uid ∧
      (∀ d ∈ MemStorage.getConversationsByUserId st uid, d.createdAt ≤ c.createdAt) ∧
      (getRecentConversation st uid).status = 200 ∧
      (getRecentConversation st uid).messages =
        MemStorage.getMessagesByConversationId st c.id ∧
      List.Sorted MemStorage.msgLe ((getRecentConversation st uid).messages)) := by
  constructor
  · intro h
    simp [getRecentConversation, h]
  · intro c hc
    rcases hS : List.insertionSort convCreatedDesc
        (MemStorage.getConversationsByUserId st uid) with _ | ⟨r, rest⟩
    · simp only [getRecentConversation, hS] at hc
      simp at hc
    · simp only [getRecentConversation, hS] at hc
      injection hc with hc
      subst hc
      have hperm := List.perm_insertionSort convCreatedDesc
        (MemStorage.getConversationsByUserId st uid)
      rw [hS] at hperm
      have hsorted := List.sorted_insertionSort convCreatedDesc
        (MemStorage.getConversationsByUserId st uid)
      rw [hS] at hsorted
      refine ⟨hperm.mem_iff.mp (List.mem_cons_self _ _), ?_, ?_, ?_, ?_⟩
      · intro d hd
        have hd' : d ∈ r :: rest := hperm.symm.mem_iff.mp hd
        rcases List.mem_cons.mp hd' with h | h
        · exact h ▸ Nat.le_refl _
        · exact List.rel_of_sorted_cons hsorted d h
      · simp only [getRecentConversation, hS]
      · simp only [getRecentConversation, hS]
      · simp only [getRecentConversation, hS]
        exact List.sorted_insertionSort MemStorage.msgLe _

/-- C3 witness: a user with no conversations gets the empty 404 result. -/
theorem C3_recent_witness :
    getRecentConversation recentFixture 2 =
      { status := 404, conversation := none, messages := [] } :=
  (C3_recent_amended recentFixture 2).1 rfl

/-! ## C6 infrastructure -/

/-- Number of persona rows stored for a user. -/
def countPersonas (st : MemStorage) (u : Nat) : Nat :=
  (MemStorage.getPersonasByUserId st u).length

/-- Well-formedness maintained by the id counter: every stored persona id is
below the counter and the ids are pairwise distinct. -/
def PersonaIdsWF (st : MemStorage) : Prop :=
  (∀ p ∈ st.personas, p.id < st.personaIdCounter) ∧
  (st.personas.map Persona.id).Nodup

theorem eq_of_mem_of_id_nodup {l : List Persona}
    (hnd : (l.map Persona.id).Nodup) {x y : Persona}
    (hx : x ∈ l) (hy : y ∈ l) (hid : x.id = y.id) : x = y := by
  induction l with
  | nil => cases hx
  | cons a t ih =>
    simp only [List.map_cons, List.nodup_cons] at hnd
    rcases List.mem_cons.mp hx with rfl | hx'
    · rcases List.mem_cons.mp hy with rfl | hy'
      · rfl
      · exact absurd (hid ▸ List.mem_map_of_mem Persona.id hy') hnd.1
    · rcases List.mem_cons.mp hy with rfl | hy'
      · exact absurd (hid ▸ List.mem_map_of_mem Persona.id hx') hnd.1
      · exact ih hnd.2 hx' hy'

theorem find?_id_of_id_nodup {l : List Persona}
    (hnd : (l.map Persona.id).Nodup) {e : Persona} (he : e ∈ l) :
    l.find? (fun p => p.id = e.id) = some e := by
  induction l with
  | nil => cases he
  | cons a t ih =>
    simp only [List.map_cons, List.nodup_cons] at hnd
    by_cases ha : a.id = e.id
    · have : a = e := by
        rcases List.mem_cons.mp he with rfl | he'
        · rfl
        · exact absurd (ha ▸ List.mem_map_of_mem Persona.id he') hnd.1
      simp [List.find?, ha, this]
    · have he' : e ∈ t := by
        rcases List.mem_cons.mp he with rfl | he'
        · exact absurd rfl ha
        · exact he'
      simpa [List.find?, ha] using ih hnd.2 he'

theorem length_filter_map_congr {α : Type} (l : List α) (g : α → α) (p : α → Bool)
    (h : ∀ x ∈ l, p (g x) = p x) :
    ((l.map g).filter p).length = (l.filter p).length := by
  induction l with
  | nil => rfl
  | cons a t ih =>
    have ha := h a (List.mem_cons_self a t)
    have ih' := ih (fun x hx => h x (List.mem_cons_of_mem a hx))
    by_cases hp : p a = true
    · simp [List.filter_cons, ha, hp, ih']
    · simp only [Bool.not_eq_true] at hp
      simp [List.filter_cons, ha, hp, ih']

theorem personas_any_counter_false {st : MemStorage} (hwf : PersonaIdsWF st) :
    st.personas.any (fun p => decide (p.id = st.personaIdCounter)) = false := by
  refine List.any_eq_false.mpr ?_
  intro p hp
  simp only [decide_eq_true_eq]
  exact Nat.ne_of_lt (hwf.1 p hp)

theorem jsMapSet_append_of_any_false {α : Type} {l : List α} {key : α → Bool}
    (v : α) (h : l.any key = false) : jsMapSet l key v = l ++ [v] := by
  unfold jsMapSet
  rw [h]
  simp

/-- Shape of a persona upsert when the user has no persona: one row with the
requester's user id and the next id is appended, and the counter advances. -/
theorem postPersonas_create_shape (st : MemStorage) (uid : Nat)
    (b : PersonaBody) (n : Nat)
    (hval : (jsFalsyString b.voice || jsFalsyString b.mood) = false)
    (hM : MemStorage.getPersonasByUserId st uid = [])
    (hwf : PersonaIdsWF st) :
    ∃ p : Persona, p.userId = uid ∧ p.id = st.personaIdCounter ∧
      (postPersonas st uid b n).2.personas = st.personas ++ [p] ∧
      (postPersonas st uid b n).2.personaIdCounter = st.personaIdCounter + 1 := by
  simp only [postPersonas, hval, Bool.false_eq_true, if_false, hM,
    MemStorage.createPersona]
  exact ⟨_, rfl, rfl, jsMapSet_append_of_any_false _ (personas_any_counter_false hwf), trivial⟩

/-- Shape of a persona upsert when the user already has a persona: the rows
are rewritten pointwise preserving ids and owners (the first existing row is
overwritten in place), and the counter does not move. -/
theorem postPersonas_update_shape (st : MemStorage) (uid : Nat)
    (b : PersonaBody) (n : Nat) (e : Persona) (rest : List Persona)
    (hval : (jsFalsyString b.voice || jsFalsyString b.mood) = false)
    (hM : MemStorage.getPersonasByUserId st uid = e :: rest)
    (hwf : PersonaIdsWF st) :
    ∃ g : Persona → Persona,
      (∀ x ∈ st.personas, (g x).userId = x.userId ∧ (g x).id = x.id) ∧
      (postPersonas st uid b n).2.personas = st.personas.map g ∧
      (postPersonas st uid b n).2.personaIdCounter = st.personaIdCounter := by
  have hmem : e ∈ st.personas :=
    List.mem_of_mem_filter (hM ▸ List.mem_cons_self e rest :
      e ∈ MemStorage.getPersonasByUserId st uid)
  have hfind : st.personas.find? (fun p => p.id = e.id) = some e :=
    find?_id_of_id_nodup hwf.2 hmem
  have hany : st.personas.any (fun p => decide (p.id = e.id)) = true :=
    List.any_eq_true.mpr ⟨e, hmem, by simp⟩
  simp only [postPersonas, hval, Bool.false_eq_true, if_false, hM,
    MemStorage.updatePersona, MemStorage.getPersona, hfind, jsMapSet, hany, if_pos]
  refine ⟨_, ?_, rfl, trivial⟩
  intro x hx
  by_cases hxe : x.id = e.id
  · have hx' : x = e := eq_of_mem_of_id_nodup hwf.2 hx hmem hxe
    simp [hxe, hx']
  · simp [hxe]

theorem postPersonas_count (st : MemStorage) (uid : Nat) (b : PersonaBody)
    (n : Nat) (hwf : PersonaIdsWF st) (v : Nat) :
    countPersonas (postPersonas st uid b n).2 v =
      if (jsFalsyString b.voice || jsFalsyString b.mood) = true then
        countPersonas st v
      else if countPersonas st uid = 0 then
        countPersonas st v + (if v = uid then 1 else 0)
      else countPersonas st v := by
  by_cases hval : (jsFalsyString b.voice || jsFalsyString b.mood) = true
  · rw [if_pos hval]
    simp [postPersonas, hval]
  · have hval' : (jsFalsyString b.voice || jsFalsyString b.mood) = false :=
      Bool.eq_false_iff.mpr hval
    rw [if_neg hval]
    rcases hM : MemStorage.getPersonasByUserId st uid with _ | ⟨e, rest⟩
    · have hc0 : countPersonas st uid = 0 := by rw [countPersonas, hM]; rfl
      rw [if_pos hc0]
      obtain ⟨p, hpu, hpid, hpers, _⟩ := postPersonas_create_shape st uid b n hval' hM hwf
      rw [countPersonas, MemStorage.getPersonasByUserId, hpers, List.filter_append,
        List.length_append]
      have hsingle : (List.filter (fun q => decide (q.userId = v)) [p]).length =
          if v = uid then 1 else 0 := by
        by_cases hv : v = uid
        · simp [List.filter_cons, hpu, hv]
        · have hne : p.userId ≠ v := by rw [hpu]; exact fun h => hv h.symm
          simp [List.filter_cons, hne, hv]
      rw [hsingle]
      rfl
    · have hcne : countPersonas st uid ≠ 0 := by rw [countPersonas, hM]; simp
      rw [if_neg hcne]
      obtain ⟨g, hg, hpers, _⟩ := postPersonas_update_shape st uid b n e rest hval' hM hwf
      rw [countPersonas, MemStorage.getPersonasByUserId, hpers]
      exact length_filter_map_congr st.personas g _ (fun x hx => by
        simp [(hg x hx).1])

theorem postPersonas_wf (st : MemStorage) (uid : Nat) (b : PersonaBody)
    (n : Nat) (hwf : PersonaIdsWF st) :
    PersonaIdsWF (postPersonas st uid b n).2 := by
  by_cases hval : (jsFalsyString b.voice || jsFalsyString b.mood) = true
  · simpa [postPersonas, hval] using hwf
  · have hval' : (jsFalsyString b.voice || jsFalsyString b.mood) = false :=
      Bool.eq_false_iff.mpr hval
    rcases hM : MemStorage.getPersonasByUserId st uid with _ | ⟨e, rest⟩
    · obtain ⟨p, hpu, hpid, hpers, hctr⟩ := postPersonas_create_shape st uid b n hval' hM hwf
      constructor
      · intro q hq
        rw [hpers] at hq
        rw [hctr]
        rcases List.mem_append.mp hq with h | h
        · exact Nat.lt_succ_of_lt (hwf.1 q h)
        · simp only [List.mem_singleton] at h
          subst h
          rw [hpid]
          exact Nat.lt_succ_self _
      · rw [hpers, List.map_append]
        refine List.nodup_append.mpr ⟨hwf.2, List.nodup_singleton _, ?_⟩
        simp only [List.map_cons, List.map_nil]
        refine (List.disjoint_singleton).mpr ?_
        rw [hpid]
        intro hmem'
        obtain ⟨q, hq, hqe⟩ := List.mem_map.mp hmem'
        exact absurd hqe (Nat.ne_of_lt (hwf.1 q hq))
    · obtain ⟨g, hg, hpers, hctr⟩ := postPersonas_update_shape st uid b n e rest hval' hM hwf
      constructor
      · intro q hq
        rw [hpers] at hq
        rw [hctr]
        obtain ⟨x, hx, rfl⟩ := List.mem_map.mp hq
        rw [(hg x hx).2]
        exact hwf.1 x hx
      · rw [hpers, List.map_map]
        have hmapeq : st.personas.map (Persona.id ∘ g) = st.personas.map Persona.id :=
          List.map_congr_left (fun x hx => (hg x hx).2)
        rw [hmapeq]
        exact hwf.2

theorem applyUpserts_inv (ops : List (Nat × PersonaBody × Nat)) :
    ∀ st : MemStorage, PersonaIdsWF st → (∀ v, countPersonas st v ≤ 1) →
      PersonaIdsWF (applyUpserts st ops) ∧
      (∀ v, countPersonas (applyUpserts st ops) v ≤ 1) := by
  induction ops with
  | nil => exact fun st hwf hc => ⟨hwf, hc⟩
  | cons op ops ih =>
    intro st hwf hc
    have hwf' := postPersonas_wf st op.1 op.2.1 op.2.2 hwf
    have hc' : ∀ v, countPersonas (postPersonas st op.1 op.2.1 op.2.2).2 v ≤ 1 := by
      intro v
      rw [postPersonas_count st op.1 op.2.1 op.2.2 hwf v]
      by_cases hval : (jsFalsyString op.2.1.voice || jsFalsyString op.2.1.mood) = true
      · rw [if_pos hval]
        exact hc v
      · rw [if_neg hval]
        by_cases hc0 : countPersonas st op.1 = 0
        · rw [if_pos hc0]
          by_cases hv : v = op.1
          · rw [if_pos hv, hv, hc0]
          · rw [if_neg hv]
            simpa using hc v
        · rw [if_neg hc0]
          exact hc v
    exact ih _ hwf' hc'

/-- C6: starting from any store whose persona table is id-well-formed and
has at most one persona per user (the freshly constructed store in
particular), any sequence of POST /api/personas upserts keeps at most one
persona row per user; and for a user with no persona, two valid upserts in a
row yield exactly one row for that user (the second updates in place). -/
theorem C6_persona_upsert_unique (st : MemStorage)
    (ops : List (Nat × PersonaBody × Nat)) (u : Nat)
    (hwf : PersonaIdsWF st) (hcount : ∀ v, countPersonas st v ≤ 1) :
    (∀ v, countPersonas (applyUpserts st ops) v ≤ 1) ∧
    (∀ (b1 b2 : PersonaBody) (n1 n2 : Nat),
      jsFalsyString b1.voice = false → jsFalsyString b1.mood = false →
      jsFalsyString b2.voice = false → jsFalsyString b2.mood = false →
      countPersonas st u = 0 →
      countPersonas (applyUpserts st [(u, b1, n1), (u, b2, n2)]) u = 1) := by
  refine ⟨(applyUpserts_inv ops st hwf hcount).2, ?_⟩
  intro b1 b2 n1 n2 hv1 hm1 hv2 hm2 hc0
  have hval1 : (jsFalsyString b1.voice || jsFalsyString b1.mood) = false := by
    simp [hv1, hm1]
  have hval2 : (jsFalsyString b2.voice || jsFalsyString b2.mood) = false := by
    simp [hv2, hm2]
  have h1 : countPersonas (postPersonas st u b1 n1).2 u = 1 := by
    rw [postPersonas_count st u b1 n1 hwf u, if_neg (by simp [hval1]),
      if_pos hc0, if_pos rfl, hc0]
  have hwf1 := postPersonas_wf st u b1 n1 hwf
  have happ : applyUpserts st [(u, b1, n1), (u, b2, n2)] =
      (postPersonas (postPersonas st u b1 n1).2 u b2 n2).2 := rfl
  rw [happ, postPersonas_count _ u b2 n2 hwf1 u, if_neg (by simp [hval2]),
    if_neg (by rw [h1]; exact one_ne_zero)]
  exact h1

/-- C6 witness: two concrete upserts for user 1 on the fresh store leave
exactly one persona row for user 1. -/
theorem C6_persona_upsert_witness :
    countPersonas (applyUpserts MemStorage.init
      [(1, { voice := some "female", mood := some "cheerful"
             customVoiceId := none, customMoodSettings := none }, 3),
       (1, { voice := some "male", mood := some "sassy"
             customVoiceId := none, customMoodSettings := none }, 4)]) 1 = 1 :=
  (C6_persona_upsert_unique MemStorage.init [] 1
    ⟨fun p hp => absurd hp (List.not_mem_nil p), List.nodup_nil⟩
    (fun _ => Nat.zero_le 1)).2
    { voice := some "female", mood := some "cheerful"
      customVoiceId := none, customMoodSettings := none }
    { voice := some "male", mood := some "sassy"
      customVoiceId := none, customMoodSettings := none }
    3 4 rfl rfl rfl rfl rfl
